import Mathlib

/-!
Shallow embedding of `src/plugin-src/print.ts` from the repository
`taeyoon0137/figma-variable-macros`, together with theorems settling the
frozen claims about its format-string resolution engine.

Modelling conventions:
* JavaScript strings are Lean `String`s; the handful of JS string operations
  the source uses (`includes`, `replaceAll`, `trim`, `startsWith`, array
  destructuring of a string) are given executable definitions over `List Char`.
* JS numbers are modelled as `ℚ` (the source performs only `* 255` on them).
* A thrown JS exception is `Except.error msg` carrying the thrown message.
* `undefined` is `Option.none` where the source can observe it.
* The Figma host API (`getLocalVariablesAsync`, `getVariableById`,
  `getVariableCollectionById`, `resolvedVariableModes`, `findAll`) is modelled
  as a read-only environment: a list of variables and, per node, an
  association list of collection-id to mode-id.  `getVariableCollectionById`
  is only ever used for its `.id`, which by the host contract is the id it was
  looked up with, so the mode lookup uses `variable.variableCollectionId`
  directly.
* Node names are treated as single-line strings (the JS regex dot does not
  match a newline; no claim involves a multi-line name).
-/

namespace FigmaPrint

/-- A runtime variable value as it flows through `print.ts`.
The Figma `VariableValue` union is `boolean | string | number | RGB | RGBA |
VariableAlias`; the runtime shape tests in the source (`typeof`, `"r" in`,
`value.type === "VARIABLE_ALIAS"`) distinguish exactly these constructors. -/
inductive VariableValue where
  | boolean (b : Bool)
  | str (s : String)
  | num (q : ℚ)
  | rgb (r g b : ℚ)
  | rgba (r g b a : ℚ)
  | variableAlias (id : String)
deriving DecidableEq, Repr

/-- A Figma `Variable` as read by `print.ts`: name, id, owning collection id
and the per-mode value table. -/
structure Variable where
  id : String
  name : String
  variableCollectionId : String
  valuesByMode : List (String × VariableValue)
deriving DecidableEq, Repr

/-- A text node as read by `print.ts`: its name and its resolved-variable-mode
table keyed by collection id. -/
structure TextNode where
  name : String
  resolvedVariableModes : List (String × String)
deriving DecidableEq, Repr

/-- The read-only host environment: the local variables, in the order
`getLocalVariablesAsync` returns them. -/
structure Env where
  vars : List Variable
deriving DecidableEq, Repr

/-- `figma.variables.getVariableById`: find a variable by id (none = null). -/
def getVariableById (env : Env) (id : String) : Option Variable :=
  env.vars.find? (fun v => v.id == id)

/-- The `variableMap` built at the top of `printVariablesFormatted`:
`new Map(variables.map(v => [v.name, v]))`.  A JS `Map` built from entries
keeps the last entry for a duplicate key, hence the lookup takes the last
variable with the given name. -/
def lookupByName (env : Env) (nm : String) : Option Variable :=
  env.vars.reverse.find? (fun v => v.name == nm)

/-- JS property read `valuesByMode[modeId]`; `none` models `undefined`
(missing mode key, or `modeId` itself being `undefined`). -/
def lookupMode (table : List (String × VariableValue)) :
    Option String → Option VariableValue
  | none => none
  | some k => (table.find? (fun p => p.1 == k)).map (·.2)

/-- The 8-bit-scaled RGBA record the source calls `RGBA`. -/
structure RGBARec where
  r : ℚ
  g : ℚ
  b : ℚ
  a : ℚ
deriving DecidableEq, Repr

/-- `isVariableAlias` from the source: a runtime shape test that is true
exactly for an object with `type === "VARIABLE_ALIAS"`; `undefined` and
non-objects fail the first guard. -/
def isVariableAlias : Option VariableValue → Bool
  | some (.variableAlias _) => true
  | _ => false

/-- `getRGBA` from the source, on a definite (non-`undefined`) value:
non-objects throw `Variable value is not an object`; an object with all four
of `r,g,b,a` returns the record with `r,g,b` multiplied by 255 and `a`
passed through; any other object (an `RGB` without `a`, or a
`VariableAlias`) throws `Variable value is not an RGBA object`. -/
def getRGBA : VariableValue → Except String RGBARec
  | .rgba r g b a => .ok ⟨r * 255, g * 255, b * 255, a⟩
  | .rgb _ _ _ => .error "Variable value is not an RGBA object"
  | .variableAlias _ => .error "Variable value is not an RGBA object"
  | .boolean _ => .error "Variable value is not an object"
  | .str _ => .error "Variable value is not an object"
  | .num _ => .error "Variable value is not an object"

/-- `getRGBA` as actually invoked by `variableResolver`, where the argument
may be `undefined` (which is falsy, so it hits the first throw). -/
def getRGBAOpt : Option VariableValue → Except String RGBARec
  | none => .error "Variable value is not an object"
  | some v => getRGBA v

/-- Is the value an object carrying all four of the `r,g,b,a` keys? -/
def isColorObject : VariableValue → Bool
  | .rgba _ _ _ _ => true
  | _ => false

/-! ### JS string primitives, over `List Char` -/

/-- JS `String.prototype.includes`, on character lists: does `pat` occur as a
contiguous sublist of the haystack? -/
def containsSub (pat : List Char) : List Char → Bool
  | [] => pat.isEmpty
  | c :: cs => pat.isPrefixOf (c :: cs) || containsSub pat cs

/-- Fuelled worker for `jsReplaceAll`; the fuel is the haystack length, and
every step consumes at least one haystack character when `pat` is nonempty. -/
def replaceAllAux (pat repl : List Char) : Nat → List Char → List Char
  | 0, hay => hay
  | _ + 1, [] => []
  | fuel + 1, c :: cs =>
    if pat.isPrefixOf (c :: cs) then
      repl ++ replaceAllAux pat repl fuel ((c :: cs).drop pat.length)
    else
      c :: replaceAllAux pat repl fuel cs

/-- JS `String.prototype.replaceAll` with a nonempty plain-string pattern:
replace every (leftmost, non-overlapping) occurrence. -/
def jsReplaceAll (s pat repl : String) : String :=
  if pat.data.isEmpty then s
  else ⟨replaceAllAux pat.data repl.data s.data.length s.data⟩

/-- JS `String.prototype.includes` on strings. -/
def jsIncludes (s pat : String) : Bool :=
  containsSub pat.data s.data

/-- JS `String.prototype.startsWith` on strings. -/
def jsStartsWith (s pat : String) : Bool :=
  pat.data.isPrefixOf s.data

/-- JS `String.prototype.trim`: strip whitespace from both ends. -/
def trimChars (l : List Char) : List Char :=
  ((l.dropWhile Char.isWhitespace).reverse.dropWhile Char.isWhitespace).reverse

/-- JS `String.prototype.trim` on strings. -/
def jsTrim (s : String) : String :=
  ⟨trimChars s.data⟩

/-- JS string indexing `s[0]` as used by the array destructuring
`[key, value] = s`: the first character as a one-character string
(every resolver name in the source is nonempty, so the `""` default is
never reached). -/
def headChar (s : String) : String :=
  match s.data with
  | [] => ""
  | c :: _ => String.singleton c

/-- JS string destructuring `[_, value] = s`: the second character as a
one-character string value, or `undefined` when the string is shorter. -/
def secondChar (s : String) : Option VariableValue :=
  match s.data with
  | _ :: c :: _ => some (.str (String.singleton c))
  | _ => none

/-! ### Textual encodings -/

/-- Modelled from the spec: deterministic textual rendering of a numeric
value.  The host's decimal number formatting is an external convention; no
claim depends on its exact digits, only on determinism. -/
def qToString (q : ℚ) : String :=
  if q.den = 1 then toString q.num else toString q.num ++ "/" ++ toString q.den

/-- Modelled from the spec: round half up to the nearest integer. -/
def roundHalfUp (q : ℚ) : ℤ :=
  ⌊q + 1 / 2⌋

/-- Modelled from the spec (`toRgbaText`, the library call `color2k.rgba`):
`rgba(r, g, b, a)` with the channels rounded half-up and the alpha rendered
with its native precision. -/
def rgbaText (c : RGBARec) : String :=
  "rgba(" ++ toString (roundHalfUp c.r) ++ ", " ++ toString (roundHalfUp c.g) ++
    ", " ++ toString (roundHalfUp c.b) ++ ", " ++ qToString c.a ++ ")"

/-- One lowercase hexadecimal digit. -/
def hexDigit (n : Nat) : Char :=
  "0123456789abcdef".data.getD n '0'

/-- Two lowercase hexadecimal digits of a channel clamped to `[0, 255]`. -/
def hexByte (n : ℤ) : String :=
  let m := (max 0 (min 255 n)).toNat
  String.mk [hexDigit (m / 16), hexDigit (m % 16)]

/-- Modelled from the spec (`toHexText`, the library call `color2k.toHex`):
lowercase `#rrggbb` with channels rounded half-up, extended with an alpha
byte when the alpha is not 1. -/
def hexText (c : RGBARec) : String :=
  "#" ++ hexByte (roundHalfUp c.r) ++ hexByte (roundHalfUp c.g) ++
    hexByte (roundHalfUp c.b) ++
    (if c.a = 1 then "" else hexByte (roundHalfUp (c.a * 255)))

/-- JS default stringification `value.toString()` of a definite value:
strings yield themselves, numbers and booleans their textual form, and any
object yields `[object Object]`. -/
def jsToString : VariableValue → String
  | .str s => s
  | .num q => qToString q
  | .boolean b => if b then "true" else "false"
  | .rgb _ _ _ => "[object Object]"
  | .rgba _ _ _ _ => "[object Object]"
  | .variableAlias _ => "[object Object]"

/-- The JS `TypeError` thrown by `undefined.toString()`. -/
def undefinedToStringError : String :=
  "TypeError: Cannot read properties of undefined"

/-! ### Value evaluator and bound name -/

/-- `evaluateVariable` from the source.  The source recurses without bound;
the fuel argument makes the recursion structural, with `none` standing for a
run that does not complete (fuel exhausted on a long or cyclic alias chain),
for an `undefined` stored value, and for the crash of the non-null assertion
on a dangling alias id. -/
def evaluateVariable (env : Env) : Nat → Variable → Option String → Option VariableValue
  | 0, _, _ => none
  | fuel + 1, vrb, modeId =>
    match lookupMode vrb.valuesByMode modeId with
    | some (.variableAlias id) =>
      match getVariableById env id with
      | some boundVariable => evaluateVariable env fuel boundVariable modeId
      | none => none
    | v => v

/-- The JS `TypeError` thrown by reading a property of `null` (the non-null
assertion `!` does not check at runtime). -/
def nullPropertyError : String :=
  "TypeError: Cannot read properties of null"

/-- `getBoundedName` from the source: the name of the immediately aliased
variable when the value at the mode is an alias, else `null` (here
`.ok none`).  On a dangling alias id, `getVariableById` returns `null` and
reading `.name` through the non-null assertion throws. -/
def getBoundedName (env : Env) (vrb : Variable) (modeId : Option String) :
    Except String (Option String) :=
  match lookupMode vrb.valuesByMode modeId with
  | some (.variableAlias id) =>
    match getVariableById env id with
    | some boundVariable => .ok (some boundVariable.name)
    | none => .error nullPropertyError
  | _ => .ok none

/-! ### Token resolver and template engine -/

/-- `variableResolver` from the source: the closure over `variable` and
`modeId` taking a resolver name and a (possibly `undefined`) value.  The `v`
branch calls `.toString()` on the value (a `TypeError` when it is
`undefined`); the `bound` branch falls back to `"N/A"` via `??`; every other
branch first normalizes the value through `getRGBA` and then dispatches, and
an unrecognized name throws `Variable resolver not found:`. -/
def variableResolver (env : Env) (vrb : Variable) (modeId : Option String)
    (resolver : String) (variableValue : Option VariableValue) :
    Except String String :=
  if resolver = "v" then
    match variableValue with
    | none => .error undefinedToStringError
    | some v => .ok (jsToString v)
  else if resolver = "bound" then
    match getBoundedName env vrb modeId with
    | .error e => .error e
    | .ok o => .ok (o.getD "N/A")
  else
    match getRGBAOpt variableValue with
    | .error e => .error e
    | .ok c =>
      if resolver = "rgba" then .ok (rgbaText c)
      else if resolver = "hex" then .ok (hexText c)
      else if resolver = "r" then .ok (qToString c.r)
      else if resolver = "g" then .ok (qToString c.g)
      else if resolver = "b" then .ok (qToString c.b)
      else if resolver = "a" then .ok (qToString c.a)
      else .error ("Variable resolver not found:" ++ resolver)

/-- `VARIABLE_RESOLVERS` from the source: a list of the 8 resolver names, in
declaration order.  Note these are plain strings, not key/value pairs. -/
def VARIABLE_RESOLVERS : List String :=
  ["v", "hex", "rgba", "bound", "r", "g", "b", "a"]

/-- The format-string substitution of `printVariablesFormatted` (lines
66-73): filter the resolver names whose destructured `[key]` (the FIRST
CHARACTER of the name) yields a `%key` occurring in the template, then fold,
replacing all occurrences of `%key` with `variableResolver(key, value)` where
`value` is the SECOND character of the resolver name (or `undefined`).  A
throw inside the resolver aborts the fold. -/
def substituteTokens (env : Env) (vrb : Variable) (modeId : Option String)
    (fstring : String) : Except String String :=
  (VARIABLE_RESOLVERS.filter (fun s => jsIncludes fstring ("%" ++ headChar s))).foldlM
    (fun acc s => do
      let repl ← variableResolver env vrb modeId (headChar s) (secondChar s)
      pure (jsReplaceAll acc ("%" ++ headChar s) repl))
    fstring

/-! ### Parsing the naming convention -/

/-- The suffix after the first occurrence of `pat` in the haystack, or `none`
when `pat` does not occur (leftmost-match start of the JS regex). -/
def afterFirst (pat : List Char) : List Char → Option (List Char)
  | [] => if pat.isEmpty then some [] else none
  | c :: cs =>
    if pat.isPrefixOf (c :: cs) then some ((c :: cs).drop pat.length)
    else afterFirst pat cs

/-- Split at the last occurrence of `", "` that still leaves a `)` in the
suffix: the greedy backtracking of the first `(.*)` group of the regex
`%printf\("(.*)", (.*)\)` against the text after `%printf("`. -/
def splitTemplateArg : List Char → Option (List Char × List Char)
  | [] => none
  | c :: cs =>
    match splitTemplateArg cs with
    | some (pre, post) => some (c :: pre, post)
    | none =>
      let l := c :: cs
      let pat := ['"', ',', ' ']
      if pat.isPrefixOf l && (l.drop 3).contains ')' then
        some ([], l.drop 3)
      else none

/-- Split at the last occurrence of `pat` (greedy `(.*)` before the final
literal of the regex). -/
def splitAtLast (pat : List Char) : List Char → Option (List Char × List Char)
  | [] => none
  | c :: cs =>
    match splitAtLast pat cs with
    | some (pre, post) => some (c :: pre, post)
    | none =>
      if pat.isPrefixOf (c :: cs) then some ([], (c :: cs).drop pat.length)
      else none

/-- The regex match `name.match(/%printf\("(.*)", (.*)\)/)` of the source,
followed by the `.trim()` of both captured groups: the template between
`%printf("` and the last `", ` that still has a closing `)` after it, and
the variable name up to the last `)`.  `none` models a null match
(the node is silently skipped). -/
def parsePrintf (nm : String) : Option (String × String) :=
  match afterFirst "%printf(\"".data nm.data with
  | none => none
  | some rest =>
    match splitTemplateArg rest with
    | none => none
    | some (t, rest2) =>
      match splitAtLast [')'] rest2 with
      | none => none
      | some (v, _) => some (⟨trimChars t⟩, ⟨trimChars v⟩)

/-! ### The batch loop -/

/-- Is the node a candidate of the `findAll` filter: a text node whose name
starts with `%printf`? -/
def isPrintfCandidate (node : TextNode) : Bool :=
  jsStartsWith node.name "%printf"

/-- The source's `const modeId = node.resolvedVariableModes[collection.id]`,
with `collection.id` equal to `variable.variableCollectionId` by the host
contract of `getVariableCollectionById`; `none` models `undefined`. -/
def nodeModeId (node : TextNode) (vrb : Variable) : Option String :=
  (node.resolvedVariableModes.find?
    (fun p => p.1 == vrb.variableCollectionId)).map (·.2)

/-- The body of the `for` loop of `printVariablesFormatted`, as a fold over
the remaining nodes.  `acc` collects the `(node name, rendered text)` pairs
written back so far, `count` is `printedCount`; the third component is the
message of an uncaught throw, which aborts the loop (later nodes are not
processed). -/
def processNodes (env : Env) :
    List TextNode → List (String × String) → Nat →
      List (String × String) × Nat × Option String
  | [], acc, count => (acc, count, none)
  | node :: rest, acc, count =>
    match parsePrintf node.name with
    | none => processNodes env rest acc count
    | some (fstring, varName) =>
      match lookupByName env varName with
      | none => (acc, count, some ("Variable " ++ varName ++ " not found"))
      | some vrb =>
        match substituteTokens env vrb (nodeModeId node vrb) fstring with
        | .error e => (acc, count, some e)
        | .ok s => processNodes env rest (acc ++ [(node.name, s)]) (count + 1)

/-- The observable outcome of one run of `printVariablesFormatted`: the text
write-backs that happened, the final `printedCount`, the `figma.notify`
message when the loop completed, and the uncaught error message when it
aborted. -/
structure BatchResult where
  rendered : List (String × String)
  printedCount : Nat
  notification : Option String
  errorMsg : Option String
deriving DecidableEq, Repr

/-- `printVariablesFormatted` from the source, as a function of the host
environment and the page's text nodes: filter the candidates by name prefix,
run the loop, and send the `Printed N variables` notification only when the
loop completes without a throw. -/
def printVariablesFormatted (env : Env) (page : List TextNode) : BatchResult :=
  match processNodes env (page.filter isPrintfCandidate) [] 0 with
  | (rendered, count, none) =>
    { rendered := rendered, printedCount := count,
      notification := some ("Printed " ++ toString count ++ " variables"),
      errorMsg := none }
  | (rendered, count, some e) =>
    { rendered := rendered, printedCount := count,
      notification := none, errorMsg := some e }

/-! ### Helper lemmas -/

/-- A stored terminal (non-alias) value is returned as is by the evaluator. -/
theorem evaluateVariable_terminal (env : Env) (fuel : Nat) (A : Variable)
    (modeId : Option String) (v : VariableValue)
    (h : lookupMode A.valuesByMode modeId = some v)
    (hv : isVariableAlias (some v) = false) :
    evaluateVariable env (fuel + 1) A modeId = some v := by
  rw [evaluateVariable, h]
  cases v <;> simp_all [isVariableAlias]

/-- A stored alias value makes the evaluator recurse, with the same mode, on
the variable the alias id resolves to. -/
theorem evaluateVariable_alias_step (env : Env) (fuel : Nat) (A B : Variable)
    (modeId : Option String) (id : String)
    (h : lookupMode A.valuesByMode modeId = some (.variableAlias id))
    (hB : getVariableById env id = some B) :
    evaluateVariable env (fuel + 1) A modeId = evaluateVariable env fuel B modeId := by
  rw [evaluateVariable, h]
  simp [hB]

/-- An error-free run of the loop over an initial segment of the node list
continues into the remainder with the accumulated write-backs and count. -/
theorem processNodes_append (env : Env) (l1 l2 : List TextNode)
    (acc acc' : List (String × String)) (count count' : Nat)
    (h : processNodes env l1 acc count = (acc', count', none)) :
    processNodes env (l1 ++ l2) acc count = processNodes env l2 acc' count' := by
  induction l1 generalizing acc count with
  | nil =>
    rw [processNodes] at h
    obtain ⟨rfl, rfl, -⟩ : acc = acc' ∧ count = count' ∧ True := by
      simpa using h
    rfl
  | cons node rest ih =>
    rw [List.cons_append]
    rw [processNodes] at h ⊢
    cases hp : parsePrintf node.name with
    | none =>
      rw [hp] at h
      exact ih _ _ h
    | some tv =>
      obtain ⟨fstring, varName⟩ := tv
      rw [hp] at h
      cases hl : lookupByName env varName with
      | none => simp [hl] at h
      | some vrb =>
        simp only [hl] at h ⊢
        cases hs : substituteTokens env vrb (nodeModeId node vrb) fstring with
        | error e => simp [hs] at h
        | ok s =>
          simp only [hs] at h ⊢
          exact ih _ _ h

/-! ### Claim theorems -/

/-- C4: `evaluateVariable` returns the variable's stored value at the mode
when it is a terminal (non-alias) value; when it is an alias it looks the
aliased variable up by id and recurses with the same mode; hence for an
acyclic chain where `A` aliases `B` and `B` holds a terminal value `c` at
the mode, evaluating `A` yields `c`. -/
theorem evaluateVariable_resolves_aliases (env : Env) (fuel : Nat)
    (A : Variable) (modeId : Option String) :
    (∀ v, lookupMode A.valuesByMode modeId = some v →
      isVariableAlias (some v) = false →
      evaluateVariable env (fuel + 1) A modeId = some v) ∧
    (∀ id B, lookupMode A.valuesByMode modeId = some (.variableAlias id) →
      getVariableById env id = some B →
      evaluateVariable env (fuel + 1) A modeId =
        evaluateVariable env fuel B modeId) ∧
    (∀ id B c, lookupMode A.valuesByMode modeId = some (.variableAlias id) →
      getVariableById env id = some B →
      lookupMode B.valuesByMode modeId = some c →
      isVariableAlias (some c) = false →
      evaluateVariable env (fuel + 2) A modeId = some c) := by
  refine ⟨fun v h hv => evaluateVariable_terminal env fuel A modeId v h hv,
    fun id B h hB => evaluateVariable_alias_step env fuel A B modeId id h hB,
    fun id B c h hB hc hvc => ?_⟩
  have h1 := evaluateVariable_alias_step env (fuel + 1) A B modeId id h hB
  have h2 := evaluateVariable_terminal env fuel B modeId c hc hvc
  calc evaluateVariable env (fuel + 2) A modeId
      = evaluateVariable env (fuel + 1) B modeId := h1
    _ = some c := h2

/-- C4 witness: in a directory where `A` aliases `B` and `B` holds the
terminal color red at mode `M`, evaluating `A` at `M` yields red. -/
theorem evaluateVariable_resolves_aliases_witness :
    evaluateVariable
      { vars := [{ id := "a", name := "A", variableCollectionId := "c",
                   valuesByMode := [("M", .variableAlias "b")] },
                 { id := "b", name := "B", variableCollectionId := "c",
                   valuesByMode := [("M", .rgba 1 0 0 1)] }] }
      2
      { id := "a", name := "A", variableCollectionId := "c",
        valuesByMode := [("M", .variableAlias "b")] }
      (some "M") = some (.rgba 1 0 0 1) :=
  (evaluateVariable_resolves_aliases _ 0 _ (some "M")).2.2 "b"
    { id := "b", name := "B", variableCollectionId := "c",
      valuesByMode := [("M", .rgba 1 0 0 1)] }
    (.rgba 1 0 0 1) rfl rfl rfl rfl

/-- C5: the `bound` token resolves to the name of the immediately aliased
variable (one hop) when the variable's value at the mode is an alias whose
id resolves, and to the literal `"N/A"` when the value at the mode is not an
alias (no binding). -/
theorem bound_token_one_hop (env : Env) (vrb : Variable)
    (modeId : Option String) (w : Option VariableValue) :
    (∀ id B, lookupMode vrb.valuesByMode modeId = some (.variableAlias id) →
      getVariableById env id = some B →
      variableResolver env vrb modeId "bound" w = .ok B.name) ∧
    (isVariableAlias (lookupMode vrb.valuesByMode modeId) = false →
      variableResolver env vrb modeId "bound" w = .ok "N/A") := by
  constructor
  · intro id B h hB
    simp [variableResolver, getBoundedName, h, hB]
  · intro hna
    cases hv : lookupMode vrb.valuesByMode modeId with
    | none => simp [variableResolver, getBoundedName, hv]
    | some v =>
      rw [hv] at hna
      cases v <;> simp_all [variableResolver, getBoundedName, isVariableAlias]

/-- C5 witness: with `A` aliasing `B` and `B` aliasing the terminal variable
`C`, the `bound` token for `A` yields the one-hop name `B`, not `C`; and a
variable with a terminal value yields `N/A`. -/
theorem bound_token_one_hop_witness :
    variableResolver
      { vars := [{ id := "a", name := "A", variableCollectionId := "c",
                   valuesByMode := [("M", .variableAlias "b")] },
                 { id := "b", name := "B", variableCollectionId := "c",
                   valuesByMode := [("M", .variableAlias "cc")] },
                 { id := "cc", name := "C", variableCollectionId := "c",
                   valuesByMode := [("M", .rgba 0 1 0 1)] }] }
      { id := "a", name := "A", variableCollectionId := "c",
        valuesByMode := [("M", .variableAlias "b")] }
      (some "M") "bound" none = .ok "B" ∧
    variableResolver
      { vars := [{ id := "cc", name := "C", variableCollectionId := "c",
                   valuesByMode := [("M", .rgba 0 1 0 1)] }] }
      { id := "cc", name := "C", variableCollectionId := "c",
        valuesByMode := [("M", .rgba 0 1 0 1)] }
      (some "M") "bound" none = .ok "N/A" :=
  ⟨(bound_token_one_hop _ _ (some "M") none).1 "b"
      { id := "b", name := "B", variableCollectionId := "c",
        valuesByMode := [("M", .variableAlias "cc")] } rfl rfl,
    (bound_token_one_hop _ _ (some "M") none).2 rfl⟩

/-- C6: for a terminal color with components in `[0,1]`, `getRGBA` returns
the record whose `r,g,b` are the inputs scaled by 255 (exactly, without
rounding) and whose `a` is the input alpha unchanged. -/
theorem getRGBA_scales_components (r g b a : ℚ)
    (hr : 0 ≤ r ∧ r ≤ 1) (hg : 0 ≤ g ∧ g ≤ 1)
    (hb : 0 ≤ b ∧ b ≤ 1) (ha : 0 ≤ a ∧ a ≤ 1) :
    getRGBA (.rgba r g b a) = .ok ⟨r * 255, g * 255, b * 255, a⟩ := rfl

/-- C6 witness: the color `(1, 0, 1/2, 1)` maps to `(255, 0, 127.5, 1)`. -/
theorem getRGBA_scales_components_witness :
    getRGBA (.rgba 1 0 (1 / 2) 1) = .ok ⟨255, 0, 255 / 2, 1⟩ := by
  rw [getRGBA_scales_components 1 0 (1 / 2) 1 (by norm_num) (by norm_num)
    (by norm_num) (by norm_num)]
  norm_num

/-- C8: `getRGBA` succeeds (with the scaled record) exactly on an object
carrying all four of the `r,g,b,a` keys, and otherwise throws one of the two
`NotAColor` messages (non-object, or object lacking a key). -/
theorem getRGBA_fails_iff_not_color (v : VariableValue) :
    ((∃ c, getRGBA v = .ok c) ↔ isColorObject v = true) ∧
    (isColorObject v = false →
      getRGBA v = .error "Variable value is not an object" ∨
      getRGBA v = .error "Variable value is not an RGBA object") := by
  cases v <;> simp [getRGBA, isColorObject]

/-- C8 witness: a string terminal value is rejected with a `NotAColor`
message. -/
theorem getRGBA_fails_iff_not_color_witness :
    getRGBA (.str "hello") = .error "Variable value is not an object" ∨
    getRGBA (.str "hello") = .error "Variable value is not an RGBA object" :=
  (getRGBA_fails_iff_not_color (.str "hello")).2 rfl

/-- C10: `getRGBA` performs no range validation: every object with the four
keys yields the scaled record, even for components outside `[0,1]`, with no
error raised; in particular `(2, -1, 3/2, 5)` yields `(510, -255, 382.5, 5)`. -/
theorem getRGBA_no_range_validation :
    (∀ r g b a : ℚ,
      getRGBA (.rgba r g b a) = .ok ⟨r * 255, g * 255, b * 255, a⟩) ∧
    getRGBA (.rgba 2 (-1) (3 / 2) 5) = .ok ⟨510, -255, 765 / 2, 5⟩ := by
  refine ⟨fun r g b a => rfl, ?_⟩
  norm_num [getRGBA]

/-- C1: refuted at a concrete input.  Rendering a node whose template holds
the token `%v`, against a variable whose terminal value at the node's mode
is the number 5, aborts with a `TypeError` instead of rendering that value:
the token scan hands the resolver the second character of the resolver-name
string (`undefined` for the one-letter name `v`), and `evaluateVariable` —
which does yield `some (num 5)` here — is never called by the rendering
path. -/
theorem render_does_not_use_evaluate :
    printVariablesFormatted
      { vars := [{ id := "x", name := "X", variableCollectionId := "c",
                   valuesByMode := [("M", .num 5)] }] }
      [{ name := "%printf(\"%v\", X)", resolvedVariableModes := [("c", "M")] }] =
      { rendered := [], printedCount := 0, notification := none,
        errorMsg := some undefinedToStringError } ∧
    evaluateVariable
      { vars := [{ id := "x", name := "X", variableCollectionId := "c",
                   valuesByMode := [("M", .num 5)] }] }
      1
      { id := "x", name := "X", variableCollectionId := "c",
        valuesByMode := [("M", .num 5)] }
      (some "M") = some (.num 5) :=
  ⟨rfl, rfl⟩

/-- C2: refuted at a concrete input.  For the template `val: %hex` the token
scan does not replace `%hex`: destructuring the resolver name `hex` yields
the key `h` and the value `e`, the filter matches the substring `%h`, and
the resolver throws `Variable value is not an object` on the letter `e`, so
the batch aborts with nothing replaced — even though the looked-up variable
holds a genuine color. -/
theorem hex_token_never_replaced :
    headChar "hex" = "h" ∧
    secondChar "hex" = some (.str "e") ∧
    jsIncludes "val: %hex" "%h" = true ∧
    printVariablesFormatted
      { vars := [{ id := "x", name := "X", variableCollectionId := "c",
                   valuesByMode := [("M", .rgba 1 0 0 1)] }] }
      [{ name := "%printf(\"val: %hex\", X)",
         resolvedVariableModes := [("c", "M")] }] =
      { rendered := [], printedCount := 0, notification := none,
        errorMsg := some "Variable value is not an object" } :=
  ⟨rfl, rfl, rfl, rfl⟩

/-- C3: refuted.  In the end-to-end scenario — directory with `Primary`
holding the terminal color red at mode `Light`, node named
`%printf("Color: %hex (%rgba)", Primary)` resolved at `Light` — the run
aborts with `Variable value is not an object` (the scan matches `%h` inside
`%hex` and resolves it against the letter `e`); no text is written back, so
the output `Color: #ff0000 (rgba(255, 0, 0, 1))` is never produced. -/
theorem end_to_end_scenario_aborts :
    printVariablesFormatted
      { vars := [{ id := "p", name := "Primary", variableCollectionId := "c",
                   valuesByMode := [("Light", .rgba 1 0 0 1)] }] }
      [{ name := "%printf(\"Color: %hex (%rgba)\", Primary)",
         resolvedVariableModes := [("c", "Light")] }] =
      { rendered := [], printedCount := 0, notification := none,
        errorMsg := some "Variable value is not an object" } :=
  rfl

/-- C7: refuted at a concrete input.  A template whose only `%` does not
begin any recognized token is not always passed through: `%unknown` is
indeed left unchanged, but `launch 100%height ok` — where the `%` begins
`%height`, not a recognized marker — aborts the run, because the scan keys
on the single character `h` destructured from the name `hex`. -/
theorem unrecognized_percent_not_preserved :
    printVariablesFormatted
      { vars := [{ id := "x", name := "X", variableCollectionId := "c",
                   valuesByMode := [("M", .num 5)] }] }
      [{ name := "%printf(\"a %unknown b % c\", X)",
         resolvedVariableModes := [("c", "M")] }] =
      { rendered := [("%printf(\"a %unknown b % c\", X)", "a %unknown b % c")],
        printedCount := 1, notification := some "Printed 1 variables",
        errorMsg := none } ∧
    printVariablesFormatted
      { vars := [{ id := "x", name := "X", variableCollectionId := "c",
                   valuesByMode := [("M", .num 5)] }] }
      [{ name := "%printf(\"launch 100%height ok\", X)",
         resolvedVariableModes := [("c", "M")] }] =
      { rendered := [], printedCount := 0, notification := none,
        errorMsg := some "Variable value is not an object" } :=
  ⟨rfl, rfl⟩

/-- C9: when the batch reaches a printf node whose variable name has no
match in the directory (all candidate nodes before it having processed
without error), the lookup throws `Variable ... not found`, the whole batch
aborts — the write-backs are exactly those of the preceding nodes, nothing
after the failing node is rendered (the result does not depend on `post`) —
and the `Printed N variables` notification is never shown. -/
theorem missing_variable_aborts_batch (env : Env) (pre post : List TextNode)
    (node : TextNode) (t vname : String)
    (r0 : List (String × String)) (c0 : Nat)
    (hcand : isPrintfCandidate node = true)
    (hparse : parsePrintf node.name = some (t, vname))
    (hmiss : lookupByName env vname = none)
    (hpre : processNodes env (pre.filter isPrintfCandidate) [] 0 = (r0, c0, none)) :
    printVariablesFormatted env (pre ++ node :: post) =
      { rendered := r0, printedCount := c0, notification := none,
        errorMsg := some ("Variable " ++ vname ++ " not found") } := by
  rw [printVariablesFormatted, List.filter_append, List.filter_cons_of_pos hcand,
    processNodes_append env _ _ _ r0 _ c0 hpre, processNodes]
  simp [hparse, hmiss]

/-- C9 witness: a three-node batch where the first node renders, the second
references the absent variable `Ghost`, and the third would render: the run
ends with the `NotFound` error, only the first write-back happened, and no
notification is shown. -/
theorem missing_variable_aborts_batch_witness :
    printVariablesFormatted
      { vars := [{ id := "x", name := "X", variableCollectionId := "c",
                   valuesByMode := [("M", .num 5)] }] }
      ([{ name := "%printf(\"hi\", X)", resolvedVariableModes := [("c", "M")] }] ++
        { name := "%printf(\"bye\", Ghost)",
          resolvedVariableModes := ([] : List (String × String)) } ::
        [{ name := "%printf(\"later\", X)",
           resolvedVariableModes := [("c", "M")] }]) =
      { rendered := [("%printf(\"hi\", X)", "hi")], printedCount := 1,
        notification := none, errorMsg := some "Variable Ghost not found" } :=
  missing_variable_aborts_batch _ _ _ _ "bye" "Ghost" _ 1 rfl rfl rfl rfl

end FigmaPrint
